import Mathlib

/-!
Verification development for the `docs/examples/basic/multiplication.ipynb`
notebook of the nengo repository.

The notebook builds a nengo model that approximates multiplication of two
piecewise-constant scalar inputs.  We embed, as Lean definitions:

  * the piecewise-constant signal generator (`Piecewise`) together with the
    three concrete signals the notebook builds (`inputA_sig`, `inputB_sig`,
    `correct_ans`);
  * the four ensembles of the Step-1 model and the five connections of the
    Step-3 model, including the `product` connection function;
  * the cell structure of the notebook (cell types, names created and used
    by each code cell, statement shapes) needed for the structural claims;
  * the `Product` subnetwork constructor from the bonus step.

Times and signal values are rationals; ensemble radii are reals (the bonus
step computes a radius with `np.sqrt`).
-/

namespace Multiplication

/-- Modelled from the spec: `nengo.processes.Piecewise` is not under the
extracted sources, only its call sites in the notebook are.  The spec
describes it as "a time-indexed input whose value is constant between
specified breakpoints", i.e. "a mapping from time offsets to output values":
at time `t` the signal takes the value of its latest breakpoint at or
before `t` (and `0` before the first breakpoint).  We represent the mapping
by its list of `(time, value)` pairs in the order they appear in the
notebook's Python dict, which is ascending in time. -/
structure Piecewise where
  data : List (ℚ × ℚ)

/-- Modelled from the spec: the value of a piecewise signal at time `t` is
the value attached to the latest breakpoint at or before `t`.  For data
sorted in ascending time order, a left fold that keeps the last entry whose
time is `≤ t` returns exactly that value. -/
def Piecewise.valueAt (p : Piecewise) (t : ℚ) : ℚ :=
  p.data.foldl (fun acc q => if q.1 ≤ t then q.2 else acc) 0

/-- `inputA = nengo.Node(Piecewise({0: 0, 2.5: 10, 4: -10}))` (Step 2). -/
def inputA_sig : Piecewise := ⟨[(0, 0), (2.5, 10), (4, -10)]⟩

/-- `inputB = nengo.Node(Piecewise({0: 10, 1.5: 2, 3: 0, 4.5: 2}))` (Step 2). -/
def inputB_sig : Piecewise := ⟨[(0, 10), (1.5, 2), (3, 0), (4.5, 2)]⟩

/-- `correct_ans = Piecewise({0: 0, 1.5: 0, 2.5: 20, 3: 0, 4: 0, 4.5: -20})`
(Step 2). -/
def correct_ans : Piecewise := ⟨[(0, 0), (1.5, 0), (2.5, 20), (3, 0), (4, 0), (4.5, -20)]⟩

/-- The connection function of the notebook (Step 3 and the bonus step):
`def product(x): return x[0] * x[1]`, applied to a 2-vector. -/
def product (x : Fin 2 → ℚ) : ℚ := x 0 * x 1

/-- A signal is constant between consecutive breakpoints: whenever `t` lies
at or after breakpoint `i` and strictly before breakpoint `i + 1`, the
signal's value at `t` is the value attached to breakpoint `i`. -/
def Piecewise.constantBetween (p : Piecewise) : Prop :=
  ∀ (i : ℕ) (h : i + 1 < p.data.length) (t : ℚ),
    (p.data.get ⟨i, Nat.lt_of_succ_lt h⟩).1 ≤ t →
      t < (p.data.get ⟨i + 1, h⟩).1 →
        p.valueAt t = (p.data.get ⟨i, Nat.lt_of_succ_lt h⟩).2

/-- An ensemble as declared by `nengo.Ensemble(n_neurons, dimensions=d,
radius=r)`; only the three parameters the notebook passes are modelled.
The radius is real because the bonus step computes one with `np.sqrt`. -/
structure Ensemble where
  n_neurons : ℕ
  dimensions : ℕ
  radius : ℝ

/-- `A = nengo.Ensemble(100, dimensions=1, radius=10)` (Step 1). -/
def A : Ensemble := ⟨100, 1, 10⟩

/-- `B = nengo.Ensemble(100, dimensions=1, radius=10)` (Step 1). -/
def B : Ensemble := ⟨100, 1, 10⟩

/-- `combined = nengo.Ensemble(220, dimensions=2, radius=15)` (Step 1). -/
def combined : Ensemble := ⟨220, 2, 15⟩

/-- `prod = nengo.Ensemble(100, dimensions=1, radius=20)` (Step 1). -/
def prod : Ensemble := ⟨100, 1, 20⟩

/-- The four ensembles created in the Step-1 `with model:` block, in
declaration order. -/
def modelEnsembles : List Ensemble := [A, B, combined, prod]

/-- An endpoint of a `nengo.Connection` in the notebook: an input node, an
ensemble, or a single dimension `combined[i]` of the combined ensemble. -/
inductive Endpoint where
  | nodeA
  | nodeB
  | ensA
  | ensB
  | combinedDim (i : Fin 2)
  | ensCombined
  | ensProd
deriving DecidableEq

/-- A `nengo.Connection(pre, post, function=f)` as declared in the
notebook; `func` is the optional `function=` argument. -/
structure Connection where
  pre : Endpoint
  post : Endpoint
  func : Option ((Fin 2 → ℚ) → ℚ)

/-- The five connections declared in the Step-3 `with model:` block, in
declaration order: `(inputA, A)`, `(inputB, B)`, `(A, combined[0])`,
`(B, combined[1])`, `(combined, prod, function=product)`. -/
def step3Connections : List Connection :=
  [⟨.nodeA, .ensA, none⟩,
   ⟨.nodeB, .ensB, none⟩,
   ⟨.ensA, .combinedDim 0, none⟩,
   ⟨.ensB, .combinedDim 1, none⟩,
   ⟨.ensCombined, .ensProd, some product⟩]

/-- The type of a notebook cell. -/
inductive CellType where
  | markdown
  | code
deriving DecidableEq

/-- The cell types of the notebook's 18 cells, in order: cells 1, 3, 5, 7,
9, 11, 13 and 16 (0-based) are code cells, all others are markdown. -/
def notebookCells : List CellType :=
  [.markdown, .code, .markdown, .code, .markdown, .code, .markdown, .code,
   .markdown, .code, .markdown, .code, .markdown, .code, .markdown,
   .markdown, .code, .markdown]

/-- The top-level names bound by code cell `n` (code cells numbered 1-8 in
execution order).  Cell 1 is the import cell; cell 8 (the bonus step)
rebinds most of the earlier names. -/
def createdBy : ℕ → List String
  | 1 => ["plt", "np", "nengo", "Choice", "Piecewise"]
  | 2 => ["model", "A", "B", "combined", "prod"]
  | 3 => ["inputA", "inputB", "correct_ans"]
  | 4 => ["product"]
  | 5 => ["inputA_probe", "inputB_probe", "A_probe", "B_probe",
          "combined_probe", "prod_probe"]
  | 6 => ["sim"]
  | 7 => []
  | 8 => ["Product", "model", "inputA", "inputB", "A", "B", "prod",
          "product", "inputA_probe", "inputB_probe", "A_probe", "B_probe",
          "combined_probe", "prod_probe", "sim"]
  | _ => []

/-- The top-level names referenced by code cell `n` (code cells numbered
1-8 in execution order). -/
def usedBy : ℕ → List String
  | 1 => []
  | 2 => ["nengo", "Choice", "combined"]
  | 3 => ["model", "nengo", "Piecewise"]
  | 4 => ["model", "nengo", "inputA", "inputB", "A", "B", "combined", "prod"]
  | 5 => ["model", "nengo", "inputA", "inputB", "A", "B", "combined", "prod"]
  | 6 => ["nengo", "model"]
  | 7 => ["plt", "sim", "A_probe", "B_probe", "prod_probe", "correct_ans"]
  | 8 => ["nengo", "np", "Choice", "Piecewise", "plt", "correct_ans",
          "model", "inputA", "inputB", "A", "B", "prod", "Product",
          "inputA_probe", "inputB_probe", "A_probe", "B_probe",
          "combined_probe", "prod_probe", "sim"]
  | _ => []

/-- The dependency discipline claimed by the spec: every name a code cell
uses but does not itself create was created in the immediately preceding
code cell. -/
def adjacentDependencyOnly : Prop :=
  ∀ n ∈ List.range' 1 8, ∀ x ∈ usedBy n, x ∉ createdBy n →
    x ∈ createdBy (n - 1)

/-- A top-level Python statement of a notebook code cell, abstracted to
what matters for error flow.  `simple` covers imports, assignments,
expression statements and library calls, identified by a source label; the
body of a `with` block is flattened into the surrounding sequence (the
context managers used, `nengo.Network` and `nengo.Simulator`, are library
objects and the notebook gives them no handler to run).  `defBlock` is a
function definition, whose body does not run at definition time.
`tryBlock` and `raiseStmt` are the Python constructs that would catch,
transform or inject failures; the notebook never writes them, and the
syntax embeds them so that their absence is a checkable fact. -/
inductive Stmt where
  | simple (label : String)
  | defBlock (name : String) (bodyLabels : List String)
  | tryBlock (body : List String) (handler : List String)
  | raiseStmt (msg : String)
deriving DecidableEq

/-- `true` iff the statement is not an exception handler. -/
def Stmt.catchFree : Stmt → Bool
  | .tryBlock _ _ => false
  | _ => true

/-- `true` iff the statement is not a `raise`. -/
def Stmt.raiseFree : Stmt → Bool
  | .raiseStmt _ => false
  | _ => true

/-- Run a list of labelled library operations under the environment `σ`,
which assigns each label its outcome; stop at the first error. -/
def runLabels (σ : String → Except String Unit) : List String → Except String Unit
  | [] => .ok ()
  | l :: ls =>
    match σ l with
    | .ok _ => runLabels σ ls
    | .error e => .error e

/-- Run one statement under the environment `σ`.  A `tryBlock` swallows
the body's error and runs its handler instead; a `raiseStmt` injects an
error of the notebook's own making.  The notebook contains neither. -/
def runStmt (σ : String → Except String Unit) : Stmt → Except String Unit
  | .simple l => σ l
  | .defBlock _ _ => .ok ()
  | .tryBlock body handler =>
    match runLabels σ body with
    | .ok _ => .ok ()
    | .error _ => runLabels σ handler
  | .raiseStmt m => .error m

/-- Run a code cell (a statement list) under `σ`, stopping at the first
error, which is returned to the caller. -/
def runCell (σ : String → Except String Unit) : List Stmt → Except String Unit
  | [] => .ok ()
  | s :: rest =>
    match runStmt σ s with
    | .ok _ => runCell σ rest
    | .error e => .error e

/-- Code cell 1: the import cell. -/
def cell1 : List Stmt :=
  [.simple "matplotlib inline magic",
   .simple "bind matplotlib.pyplot as plt",
   .simple "bind numpy as np",
   .simple "bind nengo",
   .simple "from nengo.dists bind Choice",
   .simple "from nengo.processes bind Piecewise"]

/-- Code cell 2: Step 1, creating the model and the four ensembles. -/
def cell2 : List Stmt :=
  [.simple "model = nengo.Network(label=Multiplication)",
   .simple "A = nengo.Ensemble(100, dimensions=1, radius=10)",
   .simple "B = nengo.Ensemble(100, dimensions=1, radius=10)",
   .simple "combined = nengo.Ensemble(220, dimensions=2, radius=15)",
   .simple "prod = nengo.Ensemble(100, dimensions=1, radius=20)",
   .simple "combined.encoders = Choice(corners)"]

/-- Code cell 3: Step 2, the piecewise inputs and the reference signal. -/
def cell3 : List Stmt :=
  [.simple "inputA = nengo.Node(Piecewise(dictA))",
   .simple "inputB = nengo.Node(Piecewise(dictB))",
   .simple "correct_ans = Piecewise(dictAns)"]

/-- Code cell 4: Step 3, the five connections and the `product` function. -/
def cell4 : List Stmt :=
  [.simple "nengo.Connection(inputA, A)",
   .simple "nengo.Connection(inputB, B)",
   .simple "nengo.Connection(A, combined[0])",
   .simple "nengo.Connection(B, combined[1])",
   .defBlock "product" ["return x[0] * x[1]"],
   .simple "nengo.Connection(combined, prod, function=product)"]

/-- Code cell 5: Step 4, the six probes. -/
def cell5 : List Stmt :=
  [.simple "inputA_probe = nengo.Probe(inputA)",
   .simple "inputB_probe = nengo.Probe(inputB)",
   .simple "A_probe = nengo.Probe(A, synapse=0.01)",
   .simple "B_probe = nengo.Probe(B, synapse=0.01)",
   .simple "combined_probe = nengo.Probe(combined, synapse=0.01)",
   .simple "prod_probe = nengo.Probe(prod, synapse=0.01)"]

/-- Code cell 6: Step 5, building the simulator and running it. -/
def cell6 : List Stmt :=
  [.simple "sim = nengo.Simulator(model)",
   .simple "sim.run(5)"]

/-- Code cell 7: Step 6, plotting. -/
def cell7 : List Stmt :=
  [.simple "plt.figure()",
   .simple "plt.plot(sim.trange(), sim.data[A_probe])",
   .simple "plt.plot(sim.trange(), sim.data[B_probe])",
   .simple "plt.plot(sim.trange(), sim.data[prod_probe])",
   .simple "plt.plot(sim.trange(), correct_ans.run(sim.time, dt=sim.dt))",
   .simple "plt.legend(loc=best)",
   .simple "plt.ylim(-25, 25)"]

/-- Code cell 8: the bonus step, defining and using the `Product`
subnetwork. -/
def cell8 : List Stmt :=
  [.defBlock "Product"
     ["model = nengo.Network(label=Product)",
      "model.A = nengo.Node(output=None, size_in=1)",
      "model.B = nengo.Node(output=None, size_in=1)",
      "model.combined = nengo.Ensemble(neuron_per_dimension * 2, dimensions=2, radius=np.sqrt(sum), encoders=Choice(corners))",
      "model.prod = nengo.Ensemble(neuron_per_dimension, dimensions=1, radius=input_magnitude * 2)",
      "nengo.Connection(model.A, model.combined[0], synapse=None)",
      "nengo.Connection(model.B, model.combined[1], synapse=None)",
      "def product(x): return x[0] * x[1]",
      "nengo.Connection(model.combined, model.prod, function=product)",
      "return model"],
   .simple "model = nengo.Network(label=Multiplication)",
   .simple "inputA = nengo.Node(Piecewise(dictA))",
   .simple "inputB = nengo.Node(Piecewise(dictB))",
   .simple "A = nengo.Ensemble(100, dimensions=1, radius=10)",
   .simple "B = nengo.Ensemble(100, dimensions=1, radius=10)",
   .simple "prod = Product(100, input_magnitude=10)",
   .simple "nengo.Connection(inputA, A)",
   .simple "nengo.Connection(inputB, B)",
   .simple "nengo.Connection(A, prod.A)",
   .simple "nengo.Connection(B, prod.B)",
   .simple "inputA_probe = nengo.Probe(inputA)",
   .simple "inputB_probe = nengo.Probe(inputB)",
   .simple "A_probe = nengo.Probe(A, synapse=0.01)",
   .simple "B_probe = nengo.Probe(B, synapse=0.01)",
   .simple "combined_probe = nengo.Probe(prod.combined, synapse=0.01)",
   .simple "prod_probe = nengo.Probe(prod.prod, synapse=0.01)",
   .simple "sim = nengo.Simulator(model)",
   .simple "sim.run(5)",
   .simple "plt.figure()",
   .simple "plt.plot(sim.trange(), sim.data[A_probe])",
   .simple "plt.plot(sim.trange(), sim.data[B_probe])",
   .simple "plt.plot(sim.trange(), sim.data[prod_probe])",
   .simple "plt.plot(sim.trange(), correct_ans.run(sim.time, dt=sim.dt))",
   .simple "plt.legend(loc=best)",
   .simple "plt.ylim(-25, 25)"]

/-- The eight code cells of the notebook, in execution order. -/
def notebookCodeCells : List (List Stmt) :=
  [cell1, cell2, cell3, cell4, cell5, cell6, cell7, cell8]

/-- The `Product(neuron_per_dimension, input_magnitude)` subnetwork of the
bonus step, reduced to the two ensembles it creates (`model.combined` and
`model.prod`). -/
structure ProductNet where
  combined : Ensemble
  prod : Ensemble

/-- The bonus-step constructor: `model.combined = nengo.Ensemble(
neuron_per_dimension * 2, dimensions=2, radius=np.sqrt(input_magnitude**2
+ input_magnitude**2), ...)` and `model.prod = nengo.Ensemble(
neuron_per_dimension, dimensions=1, radius=input_magnitude * 2)`. -/
noncomputable def Product (neuron_per_dimension : ℕ) (input_magnitude : ℝ) :
    ProductNet where
  combined :=
    { n_neurons := neuron_per_dimension * 2
      dimensions := 2
      radius := Real.sqrt (input_magnitude ^ 2 + input_magnitude ^ 2) }
  prod :=
    { n_neurons := neuron_per_dimension
      dimensions := 1
      radius := input_magnitude * 2 }

end Multiplication

namespace Multiplication

/-- C1: for every time `0 ≤ t < 5`, the closed-form reference signal
`correct_ans` equals the pointwise product of the two piecewise inputs. -/
theorem correct_ans_is_pointwise_product (t : ℚ) (h0 : 0 ≤ t) (h5 : t < 5) :
    correct_ans.valueAt t = inputA_sig.valueAt t * inputB_sig.valueAt t := by
  simp only [correct_ans, inputA_sig, inputB_sig, Piecewise.valueAt, List.foldl]
  split_ifs <;> norm_num <;> linarith

/-- Witness for C1 at the concrete time `t = 3`. -/
theorem correct_ans_is_pointwise_product_witness :
    (0:ℚ) ≤ 3 ∧ (3:ℚ) < 5 ∧
      correct_ans.valueAt 3 = inputA_sig.valueAt 3 * inputB_sig.valueAt 3 :=
  ⟨by norm_num, by norm_num,
    correct_ans_is_pointwise_product 3 (by norm_num) (by norm_num)⟩

/-- C2: the model declares exactly four ensembles, with `A`: 100 neurons,
1 dimension, radius 10; `B`: 100 neurons, 1 dimension, radius 10;
`combined`: 220 neurons, 2 dimensions, radius 15; `prod`: 100 neurons,
1 dimension, radius 20. -/
theorem model_has_four_ensembles :
    modelEnsembles.length = 4 ∧
    A.n_neurons = 100 ∧ A.dimensions = 1 ∧ A.radius = 10 ∧
    B.n_neurons = 100 ∧ B.dimensions = 1 ∧ B.radius = 10 ∧
    combined.n_neurons = 220 ∧ combined.dimensions = 2 ∧ combined.radius = 15 ∧
    prod.n_neurons = 100 ∧ prod.dimensions = 1 ∧ prod.radius = 20 := by
  refine ⟨rfl, rfl, rfl, rfl, rfl, rfl, rfl, rfl, rfl, rfl, rfl, rfl, rfl⟩

/-- C3: among the five Step-3 connections exactly one carries an explicit
`function=` argument; that connection is the fifth one, from `combined` to
`prod`, its function is `product`, and `product` maps a 2-vector `x` to
`x 0 * x 1`. -/
theorem step3_unique_function_connection :
    step3Connections.countP (fun c => c.func.isSome) = 1 ∧
    step3Connections.length = 5 ∧
    step3Connections[4]? =
      some ⟨.ensCombined, .ensProd, some product⟩ ∧
    ∀ x : Fin 2 → ℚ, product x = x 0 * x 1 :=
  ⟨rfl, rfl, rfl, fun _ => rfl⟩

/-- C4: each of the three piecewise signals built in the notebook
(`inputA_sig`, `inputB_sig`, `correct_ans`) is constant between
consecutive breakpoints: between two consecutive time offsets of the
defining mapping the signal holds the value of the earlier breakpoint. -/
theorem piecewise_signals_constant_between :
    inputA_sig.constantBetween ∧ inputB_sig.constantBetween ∧
      correct_ans.constantBetween := by
  refine ⟨?_, ?_, ?_⟩
  · intro i h t h1 h2
    have hi : i < 2 := by simp only [inputA_sig, List.length_cons, List.length_nil] at h; omega
    interval_cases i <;>
      · simp only [inputA_sig, Piecewise.valueAt, List.get, List.foldl] at h1 h2 ⊢
        split_ifs <;> first | rfl | linarith
  · intro i h t h1 h2
    have hi : i < 3 := by simp only [inputB_sig, List.length_cons, List.length_nil] at h; omega
    interval_cases i <;>
      · simp only [inputB_sig, Piecewise.valueAt, List.get, List.foldl] at h1 h2 ⊢
        split_ifs <;> first | rfl | linarith
  · intro i h t h1 h2
    have hi : i < 5 := by simp only [correct_ans, List.length_cons, List.length_nil] at h; omega
    interval_cases i <;>
      · simp only [correct_ans, Piecewise.valueAt, List.get, List.foldl] at h1 h2 ⊢
        split_ifs <;> first | rfl | linarith

/-- Witness for C4: concrete evaluations strictly between breakpoints,
obtained from `piecewise_signals_constant_between` at breakpoint index 0
of `inputA_sig` (time 1), index 1 of `inputB_sig` (time 2), and index 2 of
`correct_ans` (time 2.7). -/
theorem piecewise_signals_constant_between_witness :
    inputA_sig.valueAt 1 = 0 ∧ inputB_sig.valueAt 2 = 2 ∧
      correct_ans.valueAt 2.7 = 20 := by
  refine ⟨?_, ?_, ?_⟩
  · have h := piecewise_signals_constant_between.1 0
      (by norm_num [inputA_sig]) 1
      (by norm_num [inputA_sig]) (by norm_num [inputA_sig])
    simpa [inputA_sig] using h
  · have h := piecewise_signals_constant_between.2.1 1
      (by norm_num [inputB_sig]) 2
      (by norm_num [inputB_sig]) (by norm_num [inputB_sig])
    simpa [inputB_sig] using h
  · have h := piecewise_signals_constant_between.2.2 2
      (by norm_num [correct_ans]) 2.7
      (by norm_num [correct_ans]) (by norm_num [correct_ans])
    simpa [correct_ans] using h

/-- C9: the connection function `product` is symmetric in its two
components, and consequently feeding the two piecewise input signals into
`product` in either order yields the same value at every time. -/
theorem product_symmetric :
    (∀ a b : ℚ, product ![a, b] = product ![b, a]) ∧
    ∀ t : ℚ, product ![inputA_sig.valueAt t, inputB_sig.valueAt t] =
      product ![inputB_sig.valueAt t, inputA_sig.valueAt t] := by
  constructor
  · intro a b
    simp [product, mul_comm]
  · intro t
    simp [product, mul_comm]

/-- C10: the connection function `product` annihilates zero in either
component, and consequently at every time where either piecewise input
signal holds the value 0, the target product signal is exactly 0. -/
theorem product_annihilates_zero :
    (∀ a : ℚ, product ![a, 0] = 0 ∧ product ![0, a] = 0) ∧
    ∀ t : ℚ, (inputA_sig.valueAt t = 0 ∨ inputB_sig.valueAt t = 0) →
      product ![inputA_sig.valueAt t, inputB_sig.valueAt t] = 0 := by
  constructor
  · intro a
    constructor <;> simp [product]
  · intro t h
    rcases h with h | h <;> simp [product, h]

/-- Witness for C10 at time `t = 1`, where `inputA` holds the value 0. -/
theorem product_annihilates_zero_witness :
    (inputA_sig.valueAt 1 = 0 ∨ inputB_sig.valueAt 1 = 0) ∧
      product ![inputA_sig.valueAt 1, inputB_sig.valueAt 1] = 0 := by
  have hA : inputA_sig.valueAt 1 = 0 := by
    norm_num [inputA_sig, Piecewise.valueAt, List.foldl]
  exact ⟨Or.inl hA, product_annihilates_zero.2 1 (Or.inl hA)⟩

/-- C5 counterexample: the notebook's code-cell count is not at most six
(it is eight), so the claimed "four to six sequential code cells" fails. -/
theorem notebook_not_four_to_six_code_cells :
    ¬(4 ≤ notebookCells.count CellType.code ∧
      notebookCells.count CellType.code ≤ 6) := by
  decide

/-- `true` iff no two code cells are adjacent in the cell list, i.e. the
code cells are interleaved with markdown cells. -/
def noTwoAdjacentCode : List CellType → Bool
  | .code :: .code :: _ => false
  | _ :: rest => noTwoAdjacentCode rest
  | [] => true

/-- C5 amended: the notebook consists of markdown cells interleaved with
eight sequential code cells (no two code cells are adjacent). -/
theorem notebook_eight_interleaved_code_cells :
    notebookCells.count CellType.code = 8 ∧
    noTwoAdjacentCode notebookCells = true := by
  decide

/-- C6 counterexample: code cell 3 uses `Piecewise`, which it does not
create and which was created in code cell 1, not in the immediately
preceding code cell 2; hence the claimed adjacent-only dependency
discipline fails. -/
theorem adjacent_dependency_only_false :
    ("Piecewise" ∈ usedBy 3 ∧ "Piecewise" ∉ createdBy 3 ∧
      "Piecewise" ∉ createdBy 2 ∧ "Piecewise" ∈ createdBy 1) ∧
    ¬ adjacentDependencyOnly := by
  constructor
  · decide
  · intro h
    have h3 := h 3 (by decide) "Piecewise" (by decide) (by decide)
    exact absurd h3 (by decide)

/-- C6 amended: every name a code cell uses but does not itself create was
created in some earlier code cell (not necessarily the immediately
preceding one). -/
theorem dependencies_created_in_earlier_cell :
    ∀ n ∈ List.range' 1 8, ∀ x ∈ usedBy n, x ∉ createdBy n →
      ∃ m ∈ List.range' 1 8, m < n ∧ x ∈ createdBy m := by
  decide

/-- Witness for the amended C6 at code cell 3 and the name `Piecewise`,
which was created in code cell 1. -/
theorem dependencies_created_in_earlier_cell_witness :
    ∃ m ∈ List.range' 1 8, m < 3 ∧ "Piecewise" ∈ createdBy m :=
  dependencies_created_in_earlier_cell 3 (by decide) "Piecewise" (by decide)
    (by decide)

/-- In a cell free of `tryBlock` and `raiseStmt` statements, any error the
cell returns is verbatim an error produced by the library environment. -/
theorem runCell_error_from_env (σ : String → Except String Unit) :
    ∀ cell : List Stmt,
      cell.all (fun s => s.catchFree && s.raiseFree) = true →
      ∀ e, runCell σ cell = .error e → ∃ l, σ l = .error e := by
  intro cell
  induction cell with
  | nil => intro _ e h; simp [runCell] at h
  | cons s rest ih =>
    intro hfree e h
    rw [List.all_cons, Bool.and_eq_true] at hfree
    match s with
    | .simple l =>
      simp only [runCell, runStmt] at h
      rcases hσ : σ l with e2 | u
      · rw [hσ] at h
        exact ⟨l, hσ.trans h⟩
      · rw [hσ] at h
        exact ih hfree.2 e h
    | .defBlock nm body =>
      simp only [runCell, runStmt] at h
      exact ih hfree.2 e h
    | .tryBlock body handler =>
      simp [Stmt.catchFree] at hfree
    | .raiseStmt m =>
      simp [Stmt.catchFree, Stmt.raiseFree] at hfree

/-- C7: no statement of any code cell of the notebook is an exception
handler or a `raise`, and consequently any error raised by a library
operation while running a cell propagates to the caller unchanged: an
error returned by a cell is verbatim an error produced by the library
environment. -/
theorem notebook_no_exception_handling :
    (notebookCodeCells.all fun cell =>
      cell.all fun s => s.catchFree && s.raiseFree) = true ∧
    ∀ (σ : String → Except String Unit), ∀ cell ∈ notebookCodeCells,
      ∀ e, runCell σ cell = .error e → ∃ l, σ l = .error e := by
  constructor
  · decide
  · intro σ cell hmem e h
    refine runCell_error_from_env σ cell ?_ e h
    fin_cases hmem <;> decide

/-- Witness for C7: under an environment in which the operation labelled
`bind nengo` fails with error `boom`, running the import cell returns
exactly that error, and the theorem recovers the failing library label. -/
theorem notebook_no_exception_handling_witness :
    ∃ l, (fun l => if l = "bind nengo" then (Except.error "boom" : Except String Unit)
        else Except.ok ()) l = Except.error "boom" :=
  notebook_no_exception_handling.2
    (fun l => if l = "bind nengo" then (Except.error "boom" : Except String Unit)
      else Except.ok ())
    cell1 (by decide) "boom" (by rfl)

/-- `10 * √2` is not `15` (squaring gives `200 = 225`). -/
theorem ten_sqrt_two_ne_fifteen : (10 : ℝ) * Real.sqrt 2 ≠ 15 := by
  intro h
  have h2 : ((10 : ℝ) * Real.sqrt 2) ^ 2 = 15 ^ 2 := by rw [h]
  rw [mul_pow, Real.sq_sqrt (by norm_num : (0:ℝ) ≤ 2)] at h2
  norm_num at h2

/-- C8: for every `n` and `m`, `Product n m` builds a combined ensemble
with `2 * n` neurons and radius `√(m² + m²)` and an output ensemble with
`n` neurons and radius `2 * m`; hence `Product 100 10` yields a combined
ensemble with 200 neurons and radius `10√2`, which differs from the flat
model's `combined` ensemble (220 neurons, radius 15) in both fields. -/
theorem Product_combined_differs_from_flat_model :
    (∀ (n : ℕ) (m : ℝ),
      (Product n m).combined.n_neurons = 2 * n ∧
      (Product n m).combined.dimensions = 2 ∧
      (Product n m).combined.radius = Real.sqrt (m ^ 2 + m ^ 2) ∧
      (Product n m).prod.n_neurons = n ∧
      (Product n m).prod.dimensions = 1 ∧
      (Product n m).prod.radius = 2 * m) ∧
    (Product 100 10).combined.n_neurons = 200 ∧
    (Product 100 10).combined.radius = 10 * Real.sqrt 2 ∧
    (Product 100 10).combined.n_neurons ≠ combined.n_neurons ∧
    (Product 100 10).combined.radius ≠ combined.radius := by
  have hrad : (Product 100 10).combined.radius = 10 * Real.sqrt 2 := by
    show Real.sqrt ((10:ℝ) ^ 2 + 10 ^ 2) = 10 * Real.sqrt 2
    rw [show ((10:ℝ) ^ 2 + 10 ^ 2) = 10 ^ 2 * 2 by norm_num,
      Real.sqrt_mul (by positivity), Real.sqrt_sq (by norm_num)]
  refine ⟨fun n m => ⟨Nat.mul_comm n 2, rfl, rfl, rfl, rfl, mul_comm m 2⟩,
    rfl, hrad, by decide, ?_⟩
  rw [hrad]
  exact fun h => ten_sqrt_two_ne_fifteen (h.trans (by norm_num [combined]))

end Multiplication
